import Mathlib

/-!
Verification development for the order-orchestration backend
(`backend/app` of the repository): shallow Lean embeddings of the
unified order store, the idempotency-guarded shipment creation, the
webhook service and HTTP webhook endpoint, the carrier-selection rules,
the dispatch orchestration and the GLS tracking poller, together with
theorems settling the behavioural claims about them.
-/

/-! ## Association lists

Python `dict`s keyed by strings are embedded as insertion-ordered
association lists: `alookup` is `dict.get`, `aset` is `d[k] = v`
(update in place when the key exists, append otherwise), matching
CPython's insertion-order preservation. -/

/-- Lookup of a key in an association list, mirroring `dict.get(k)`. -/
def alookup {α : Type} : List (String × α) → String → Option α
  | [], _ => none
  | (k, v) :: rest, key => if k = key then some v else alookup rest key

/-- Write of a key in an association list, mirroring `d[k] = v`:
replaces the value in place when the key is present, appends otherwise. -/
def aset {α : Type} : List (String × α) → String → α → List (String × α)
  | [], key, v => [(key, v)]
  | (k, w) :: rest, key, v =>
      if k = key then (k, v) :: rest else (k, w) :: aset rest key v

@[simp] theorem alookup_nil {α : Type} (key : String) :
    alookup ([] : List (String × α)) key = none := rfl

@[simp] theorem alookup_cons {α : Type} (k : String) (v : α) (rest : List (String × α))
    (key : String) :
    alookup ((k, v) :: rest) key = if k = key then some v else alookup rest key := rfl

@[simp] theorem aset_nil {α : Type} (key : String) (v : α) :
    aset ([] : List (String × α)) key v = [(key, v)] := rfl

@[simp] theorem aset_cons {α : Type} (k : String) (w : α) (rest : List (String × α))
    (key : String) (v : α) :
    aset ((k, w) :: rest) key v
      = if k = key then (k, v) :: rest else (k, w) :: aset rest key v := rfl

theorem alookup_aset_self {α : Type} (l : List (String × α)) (key : String) (v : α) :
    alookup (aset l key v) key = some v := by
  induction l with
  | nil => simp
  | cons hd tl ih =>
      obtain ⟨k, w⟩ := hd
      by_cases h : k = key
      · simp [h]
      · simp [h, ih]

theorem alookup_aset_other {α : Type} (l : List (String × α)) (key key' : String) (v : α)
    (h : key ≠ key') :
    alookup (aset l key v) key' = alookup l key' := by
  induction l with
  | nil => simp [h]
  | cons hd tl ih =>
      obtain ⟨k, w⟩ := hd
      by_cases hk : k = key
      · subst hk
        simp [h]
      · simp only [aset_cons, if_neg hk, alookup_cons]
        by_cases hk' : k = key'
        · simp [hk']
        · simp [hk', ih]

theorem alookup_append_right {α : Type} (l l' : List (String × α)) (key : String)
    (h : alookup l key = none) :
    alookup (l ++ l') key = alookup l' key := by
  induction l with
  | nil => simp
  | cons hd tl ih =>
      obtain ⟨k, w⟩ := hd
      by_cases hk : k = key
      · simp [hk] at h
      · simp only [alookup_cons, if_neg hk] at h
        simpa [hk] using ih h

/-! ## Order state store (`backend/app/core/unified_order_logger.py`)

`UnifiedOrderLogger` keeps one CSV row per order, keyed by `order_id`;
`_read_csv` materialises the file as a `dict` keyed by `order_id` and
`_write_csv` writes it back whole, so the store is embedded as an
association list from `order_id` to a record, itself an association
list from field name to the field's string value (every value round
trips through CSV as text). -/

/-- One stored order row: field name to CSV text value. -/
abbrev OrderRec : Type := List (String × String)

/-- The whole store: `order_id` to its row, as `_read_csv` returns it. -/
abbrev OrderStore : Type := List (String × OrderRec)

/-- Merge of an update dict into a record, mirroring Python
`record.update(fields)`: each pair of `fields` is written in order. -/
def recUpdate (rec fields : OrderRec) : OrderRec :=
  fields.foldl (fun acc kv => aset acc kv.1 kv.2) rec

/-- Embedding of `UnifiedOrderLogger.upsert_order` (lines 102-139): read
the store, merge `fields` into the existing record and refresh
`updated_at` when `order_id` is present, otherwise create a fresh record
whose base dict sets `order_id`, `created_at` and `updated_at` to `now`
before merging `fields`, then write the store back. -/
def upsert_order (now : String) (store : OrderStore) (order_id : String)
    (fields : OrderRec) : OrderStore :=
  match alookup store order_id with
  | some rec => aset store order_id (aset (recUpdate rec fields) "updated_at" now)
  | none =>
      store ++ [(order_id,
        recUpdate [("order_id", order_id), ("created_at", now), ("updated_at", now)] fields)]

/-- Embedding of `UnifiedOrderLogger.get_order` (lines 141-156): read the
store and return the record for `order_id`, or `none` when absent. -/
def get_order (store : OrderStore) (order_id : String) : Option OrderRec :=
  alookup store order_id

/-! ## Idempotency-guarded shipment creation
(`backend/app/adapters/carriers/correosex.py`, same pattern in `gls.py`)

The adapter keeps a process-local set `_idempotency_keys`.
`create_shipment_with_idempotency` derives a fingerprint key from the
order, returns `_get_cached_shipment(key)` when the key is already in
the set, and otherwise calls the external `create_shipment` and adds the
key. The SHA-256 hex digest is abstracted as a function parameter
`sha256hex`; the embedding quantifies over it. -/

/-- Result dict of a shipment creation, restricted to the fields the
cached placeholder sets; `cached` mirrors the `"cached": True` marker of
`_get_cached_shipment`. -/
structure ShipResult where
  shipment_id : String
  expedition_id : String
  tracking_number : String
  status : String
  cached : Bool
deriving DecidableEq, Repr

/-- Order fields read by `_generate_idempotency_key`, each already in the
string form Python interpolates into the key (`weight` is the rendering
of `order_data.get("weight", 0)`). -/
structure IdemOrder where
  order_id : String
  weight : String
  postal_code : String
  city : String
deriving DecidableEq, Repr

/-- Embedding of `_generate_idempotency_key` (correosex.py lines
176-184, gls.py lines 545-548): the first 16 hex characters of the
SHA-256 digest of the underscore-joined key data. -/
def generate_idempotency_key (sha256hex : String → String) (o : IdemOrder) : String :=
  (sha256hex (o.order_id ++ "_" ++ o.weight ++ "_" ++ o.postal_code ++ "_" ++ o.city)).take 16

/-- Embedding of `_get_cached_shipment` (correosex.py lines 206-214,
gls.py lines 561-568): a synthetic placeholder built from the key alone,
not a stored copy of any earlier creation result. -/
def get_cached_shipment (key : String) : ShipResult :=
  { shipment_id := "CACHED-" ++ key.take 8
    expedition_id := "CACHED-" ++ key.take 8
    tracking_number := "CE" ++ key.take 8
    status := "CREATED"
    cached := true }

/-- Embedding of `create_shipment_with_idempotency` (correosex.py lines
186-204): on a key hit return the synthetic cached placeholder without
touching the external service; otherwise invoke the external
`create_shipment` (the `create` parameter) and record the key. The third
component counts how many times the external `create_shipment` was
invoked by this call (0 or 1). -/
def create_shipment_with_idempotency (sha256hex : String → String)
    (create : IdemOrder → ShipResult) (keys : List String) (o : IdemOrder) :
    ShipResult × List String × Nat :=
  let key := generate_idempotency_key sha256hex o
  if keys.contains key then (get_cached_shipment key, keys, 0)
  else (create o, key :: keys, 1)

/-! ## Webhook service (`backend/app/core/webhook_service.py`)

`WebhookService.validate_webhook` checks, in order: timestamp freshness
(only when the timestamp string is non-empty), presence of a per-carrier
secret, and an HMAC-SHA256 signature compared with
`hmac.compare_digest`. The whole body is wrapped in a blanket
`except Exception` that returns `False`.

The X-Timestamp string is embedded by what the code observes of it:
an empty string is falsy and skips the freshness check; a string
`datetime.fromisoformat` cannot parse raises `ValueError` (caught,
rejected); a parsed offset-naive datetime yields an age in seconds
against the naive `datetime.utcnow()`; a string with a `Z` or UTC-offset
suffix parses (after the `replace` of `Z` by the offset) to an
offset-aware datetime, and subtracting it from the naive
`datetime.utcnow()` raises `TypeError`, which falls into the blanket
handler and is rejected. -/

/-- Observable shape of the X-Timestamp header value. -/
inductive TsArg where
  | empty : TsArg
  | unparseable : TsArg
  | naiveParsed (ageSeconds : Int) : TsArg
  | awareParsed (ageSeconds : Int) : TsArg
deriving DecidableEq, Repr

/-- The per-carrier webhook secrets configured in
`WebhookService.__init__` (identical to `WEBHOOK_SECRETS` in
`api/carriers.py`). -/
def webhook_secrets : List (String × String) :=
  [("tipsa", "tipsa_webhook_secret_2025"),
   ("ontime", "ontime_webhook_secret_2025"),
   ("seur", "seur_webhook_secret_2025"),
   ("correosex", "correosex_webhook_secret_2025")]

/-- Freshness window of `WebhookService` in seconds (`max_timestamp_age = 300`). -/
def max_timestamp_age : Int := 300

/-- Secret lookup and signature comparison of `validate_webhook` (lines
74-96): `_generate_signature` is HMAC-SHA256 of the payload keyed by the
secret, abstracted as the parameter `hmacSha256hex secret payload`;
`hmac.compare_digest` is string equality. -/
def validate_webhook_signature_part (hmacSha256hex : String → String → String)
    (payload signature carrier : String) : Bool :=
  match alookup webhook_secrets carrier with
  | none => false
  | some secret => signature = hmacSha256hex secret payload

/-- Embedding of `WebhookService.validate_webhook` (lines 34-105). -/
def validate_webhook (hmacSha256hex : String → String → String)
    (payload signature : String) (timestamp : TsArg) (carrier : String) : Bool :=
  match timestamp with
  | .unparseable => false
  | .awareParsed _ => false
  | .naiveParsed age =>
      if age > max_timestamp_age then false
      else validate_webhook_signature_part hmacSha256hex payload signature carrier
  | .empty => validate_webhook_signature_part hmacSha256hex payload signature carrier

/-- Event payload fields `process_webhook_event` reads; the canonical
JSON hash fallback for the event id is abstracted as a parameter. -/
structure WebhookEventData where
  event_id : Option String
  id : Option String
  expedition_id : Option String
  event_type : Option String
deriving DecidableEq, Repr

/-- Python `a or b` on an optional string: falsy (absent or empty)
falls through to the default. -/
def py_or_str : Option String → String → String
  | some s, d => if s = "" then d else s
  | none, d => d

/-- Event-id extraction of `process_webhook_event` (lines 150-156):
`event_data.get("event_id") or event_data.get("id")`, else the first 16
hex characters of the SHA-256 of the canonical JSON dump (`hash16`). -/
def extract_event_id (hash16 : WebhookEventData → String) (e : WebhookEventData) : String :=
  py_or_str e.event_id (py_or_str e.id (hash16 e))

/-- Embedding of `WebhookService.is_duplicate_event` (lines 115-125);
the `processed_events` set is modelled as a list queried by membership. -/
def is_duplicate_event (processed : List String) (eid : String) : Bool :=
  processed.contains eid

/-- Embedding of `WebhookService.mark_event_processed` (lines 127-134). -/
def mark_event_processed (processed : List String) (eid : String) : List String :=
  eid :: processed

/-- Return dict of `process_webhook_event`: the duplicate short-circuit
dict or the processed-event dict (lines 166-196). -/
inductive ProcessOutcome where
  | duplicate (event_id message : String) : ProcessOutcome
  | processed (event_id carrier : String) (expedition_id : Option String)
      (event_type processed_at : String) : ProcessOutcome
deriving DecidableEq, Repr

/-- Embedding of `WebhookService.process_webhook_event` (lines 136-205):
extract the event id; on a duplicate return the duplicate dict without
touching `processed_events`; otherwise mark the id processed and return
the processed dict. The function mutates no other state: in particular
it never writes the order store. -/
def process_webhook_event (hash16 : WebhookEventData → String) (now carrier : String)
    (processed : List String) (e : WebhookEventData) : ProcessOutcome × List String :=
  let eid := extract_event_id hash16 e
  if is_duplicate_event processed eid then
    (.duplicate eid "Event already processed", processed)
  else
    (.processed eid carrier e.expedition_id (e.event_type.getD "unknown") now,
     mark_event_processed processed eid)

/-! ## Webhook HTTP endpoint (`backend/app/api/carriers.py`, `receive_webhook`)

The route `POST /api/v1/carriers/webhooks/carrier` reads the raw body,
validates the X-Timestamp header (only when present), validates the
X-Signature header via the adapter (only when present), parses the JSON
body and processes the event. `HTTPException`s raised inside the `try`
are re-raised by the dedicated `except HTTPException` arm and become
HTTP error responses; any other exception falls into the blanket handler
that returns an acknowledgment dict. The route declares no
`status_code`, so every returned dict is served with the FastAPI default
status 200. Adapter signature validation and event processing (JSON
parse plus `adapter.process_webhook_event`) are abstracted as function
parameters. -/

/-- Acknowledgment dict returned by `receive_webhook` on the success and
the swallowed-exception paths. -/
structure AckBody where
  status : String
  carrier : Option String
  error : Option String
  processed_at : Option String
deriving DecidableEq, Repr

/-- HTTP outcome of the endpoint: a propagated `HTTPException` or a
returned body with its HTTP status. -/
inductive HttpResponse where
  | httpError (status : Nat) (detail : String) : HttpResponse
  | ok (status : Nat) (body : AckBody) : HttpResponse
deriving DecidableEq, Repr

/-- Carriers registered in `CARRIER_ADAPTERS` of `api/carriers.py`. -/
def carriers_api_adapters : List String := ["tipsa", "ontime", "seur", "correosex"]

/-- Acknowledgment of the blanket exception handler (carriers.py line
226): status accepted with an error note, served as HTTP 200. -/
def ack_failed (carrier : String) : AckBody :=
  { status := "accepted", carrier := some carrier,
    error := some "Processing failed", processed_at := none }

/-- Acknowledgment of the success path (carriers.py line 219), served as
HTTP 200. -/
def ack_ok (carrier now : String) : AckBody :=
  { status := "accepted", carrier := some carrier,
    error := none, processed_at := some now }

/-- Processing tail of `receive_webhook` (lines 204-226): JSON parse and
`adapter.process_webhook_event`, abstracted as `processEvent`; any
exception there is swallowed into the acknowledgment dict. -/
def receive_webhook_process (processEvent : String → Except String Unit)
    (now carrier payload : String) : HttpResponse :=
  match processEvent payload with
  | Except.ok _ => .ok 200 (ack_ok carrier now)
  | Except.error _ => .ok 200 (ack_failed carrier)

/-- Signature step of `receive_webhook` (lines 199-202): only evaluated
when the X-Signature header is present; an invalid signature raises
`HTTPException 401`, re-raised to the caller. -/
def receive_webhook_check_sig (validateSig : String → String → String → Bool)
    (processEvent : String → Except String Unit)
    (now carrier secret payload : String) (x_signature : Option String) : HttpResponse :=
  match x_signature with
  | none => receive_webhook_process processEvent now carrier payload
  | some sig =>
      if validateSig payload sig secret then
        receive_webhook_process processEvent now carrier payload
      else .httpError 401 "Invalid webhook signature"

/-- Embedding of `receive_webhook` (carriers.py lines 157-226).
`validateSig payload sig secret` is the adapter
`validate_webhook_signature`; `processEvent` covers JSON parsing plus
`adapter.process_webhook_event`; `x_timestamp` is the observable shape
of the X-Timestamp header (see `TsArg`): a missing header skips the
freshness check, an unparseable value raises `HTTPException 400`, a
parsed offset-naive value older than 5 minutes raises
`HTTPException 400`, and an offset-aware value makes the naive-minus-
aware subtraction raise `TypeError`, which the blanket handler turns
into the acknowledgment dict. -/
def receive_webhook (validateSig : String → String → String → Bool)
    (processEvent : String → Except String Unit) (now carrier : String)
    (x_signature : Option String) (x_timestamp : Option TsArg)
    (payload : String) : HttpResponse :=
  if carriers_api_adapters.contains carrier then
    match alookup webhook_secrets carrier with
    | none => .httpError 500 "Webhook secret not configured"
    | some secret =>
        match x_timestamp with
        | some .unparseable => .httpError 400 "Invalid timestamp format"
        | some (.awareParsed _) => .ok 200 (ack_failed carrier)
        | some (.naiveParsed age) =>
            if age > 300 then .httpError 400 "Webhook timestamp too old"
            else receive_webhook_check_sig validateSig processEvent now carrier secret
                   payload x_signature
        | some .empty =>
            receive_webhook_check_sig validateSig processEvent now carrier secret
              payload x_signature
        | none =>
            receive_webhook_check_sig validateSig processEvent now carrier secret
              payload x_signature
  else .httpError 400 ("Unsupported carrier: " ++ carrier)

/-! ## Carrier selection (`backend/app/rules/selector.py` and
`backend/app/rules/engine.py`) -/

/-- Order attributes read by `select_carrier`; every field is optional,
mirroring `dict.get` with the documented defaults (weight 0, empty
strings, country "ES"). -/
structure SelOrder where
  weight : Option ℚ
  payment_method : Option String
  shipping_speed : Option String
  country : Option String
deriving DecidableEq, Repr

/-- Embedding of `select_carrier` (selector.py lines 14-64): the five
ordered rules; the surrounding `except` fallback to "tipsa" is
unreachable in the embedding because every read is total. -/
def select_carrier (o : SelOrder) : String :=
  if o.weight.getD 0 > 20 then "tipsa"
  else if o.payment_method.getD "" = "COD" then "tipsa"
  else if o.shipping_speed.getD "" = "EXPRESS" then "dhl"
  else if o.country.getD "ES" ≠ "ES" then "dhl"
  else "tipsa"

/-- Carrier enum of `engine.py`. -/
inductive CarrierType where
  | tipsa | dhl | ups | fedex
deriving DecidableEq, Repr

/-- Order attributes read by the default rules of `RulesEngine`. -/
structure EngOrder where
  weight : ℚ
  cod_amount : Option ℚ
  service_type : String
  country : String
deriving DecidableEq, Repr

/-- A rule of `RulesEngine` (engine.py lines 28-35). -/
structure EngRule where
  name : String
  condition : EngOrder → Bool
  carrier : CarrierType
  priority : Int

/-- The default rule set built by `_load_default_rules` (engine.py lines
55-100), already in the descending-priority order that the stable sort
of `add_rule` produces for the insertion priorities 100, 90, 80, 70, 0. -/
def default_rules : List EngRule :=
  [⟨"heavy_packages", fun o => o.weight > 20, .tipsa, 100⟩,
   ⟨"cod_orders", fun o => match o.cod_amount with
       | some c => c > 0
       | none => false, .tipsa, 90⟩,
   ⟨"express_service", fun o => o.service_type = "express", .dhl, 80⟩,
   ⟨"international_orders", fun o => o.country ≠ "ES", .dhl, 70⟩,
   ⟨"default_tipsa", fun _ => true, .tipsa, 0⟩]

/-- Embedding of `RulesEngine.get_carrier_for_order` (engine.py lines
188-211): first rule in priority order whose condition holds, with the
TIPSA fallback when none matches. -/
def get_carrier_for_order (rules : List EngRule) (o : EngOrder) : CarrierType :=
  match rules.find? (fun r => r.condition o) with
  | some r => r.carrier
  | none => .tipsa

/-! ## Dispatch orchestration
(`backend/app/api/orchestrator.py`, `load_orders_and_create_shipments`)

The endpoint fetches orders (abstracted here as the input list), groups
them by `select_carrier`, calls each adapter `create_shipments_bulk`
(abstracted as the `bulk` parameter, returning an exception or a result
dict), and collects shipments plus a per-carrier breakdown; a carrier
whose bulk call raises gets a breakdown entry with an `error` field and
processing continues with the remaining groups. Shipments are opaque
pass-through payloads, modelled as strings. -/

/-- Result dict of `create_shipments_bulk` as read by the orchestrator:
only the `shipments` list is consulted. -/
structure BulkResult where
  shipments : List String
deriving DecidableEq, Repr

/-- One entry of the per-carrier breakdown (orchestrator.py lines
118-132). -/
structure CarrierBreakdown where
  orders : Nat
  shipments : Nat
  carrier_name : String
  error : Option String
deriving DecidableEq, Repr

/-- Carrier display name from `get_carrier_info` (selector.py lines
127-179); carriers outside the info table get the "Unknown" default. -/
def get_carrier_info_name (c : String) : String :=
  if c = "tipsa" then "TIPSA"
  else if c = "dhl" then "DHL Express"
  else if c = "ontime" then "OnTime"
  else if c = "ups" then "UPS"
  else "Unknown"

/-- One step of the grouping loop `carriers_groups.setdefault(code,
[]).append(order)`: append to the group of the code, creating it at the
end on first appearance (dict insertion order). -/
def add_to_group : List (String × List SelOrder) → String → SelOrder →
    List (String × List SelOrder)
  | [], code, o => [(code, [o])]
  | (c, g) :: rest, code, o =>
      if c = code then (c, g ++ [o]) :: rest
      else (c, g) :: add_to_group rest code o

/-- Grouping of orders by selected carrier (orchestrator.py lines 93-97). -/
def group_orders_by_carrier (orders : List SelOrder) : List (String × List SelOrder) :=
  orders.foldl (fun acc o => add_to_group acc (select_carrier o) o) []

/-- Response of `load_orders_and_create_shipments` restricted to the
fields the claims concern. -/
structure DispatchResult where
  success : Bool
  orders_processed : Nat
  shipments_created : Nat
  shipments : List String
  carrier_breakdown : List (String × CarrierBreakdown)
deriving DecidableEq, Repr

/-- Per-group body of the dispatch loop (orchestrator.py lines 103-133):
skip empty groups and unknown carriers; on success extend the shipments
and record a breakdown entry; on an adapter exception record a breakdown
entry with the error string and continue. -/
def dispatch_group_step (bulk : String → Option (List SelOrder → Except String BulkResult))
    (acc : List String × List (String × CarrierBreakdown))
    (g : String × List SelOrder) : List String × List (String × CarrierBreakdown) :=
  if g.2.isEmpty then acc
  else
    match bulk g.1 with
    | none => acc
    | some f =>
        match f g.2 with
        | Except.ok r =>
            (acc.1 ++ r.shipments,
             acc.2 ++ [(g.1, ⟨g.2.length, r.shipments.length, get_carrier_info_name g.1, none⟩)])
        | Except.error e =>
            (acc.1,
             acc.2 ++ [(g.1, ⟨g.2.length, 0, get_carrier_info_name g.1, some e⟩)])

/-- Embedding of `load_orders_and_create_shipments` (orchestrator.py
lines 57-162), with the fetched orders as input and the adapter map as
the `bulk` parameter. -/
def load_orders_and_create_shipments
    (bulk : String → Option (List SelOrder → Except String BulkResult))
    (orders : List SelOrder) : DispatchResult :=
  if orders.isEmpty then ⟨true, 0, 0, [], []⟩
  else
    let groups := group_orders_by_carrier orders
    let res := groups.foldl (dispatch_group_step bulk) ([], [])
    ⟨true, orders.length, res.1.length, res.1, res.2⟩

/-! ## GLS tracking poller
(`backend/app/services/gls_tracking_poller.py`)

`poll_once` awaits `_poll_tracking_updates`, which starts by calling
`unified_order_logger.get_orders_by_carrier("gls")`. `UnifiedOrderLogger`
(core/unified_order_logger.py) defines no such method - its public
surface is `upsert_order`, `get_order`, `get_orders_by_state`,
`get_all_orders` and `export_csv` - so this attribute access raises
`AttributeError` before any order is polled; `poll_once` has no handler
and propagates it. The per-order loop that follows the fetch (lines
105-148) is embedded for completeness, with the GLS status query and the
Mirakl tracking update as function parameters. -/

/-- Python exception abstraction for the poller path. -/
inductive PyErr where
  | attributeError (attr : String) : PyErr
  | upstream (msg : String) : PyErr
deriving DecidableEq, Repr

/-- Result dict of `GlsAdapter.get_shipment_status` as read by the
poller: the `status` field, the `events` list (opaque pass-through
payload, modelled as a string) and `delivery_date`. -/
structure GlsStatusRes where
  status : Option String
  events : String
  delivery_date : Option String
deriving DecidableEq, Repr

/-- Python truthiness of an optional string field. -/
def truthy : Option String → Bool
  | some s => s ≠ ""
  | none => false

/-- Attribute access `unified_order_logger.get_orders_by_carrier`: the
class defines no method of this name, so the access raises
`AttributeError` for every store and argument. -/
def unified_get_orders_by_carrier (_store : OrderStore) (_carrier : String) :
    Except PyErr (List OrderRec) :=
  Except.error (PyErr.attributeError "get_orders_by_carrier")

/-- Embedding of `_update_mirakl_tracking` (gls_tracking_poller.py lines
168-213): silently return when the Mirakl order id or tracking number is
falsy; otherwise push the tracking update (the `push` parameter,
re-raising its exception), and on a DELIVERED carrier status of a
not-yet-DELIVERED order additionally upsert the internal state. The
second component counts Mirakl tracking pushes performed (0 or 1). -/
def update_mirakl_tracking (push : String → String → Except PyErr Unit) (now : String)
    (store : OrderStore) (order : OrderRec) (td : GlsStatusRes) :
    Except PyErr (OrderStore × Nat) :=
  let oid := alookup order "mirakl_order_id"
  let tn := alookup order "tracking_number"
  if truthy oid && truthy tn then
    match push (oid.getD "") (tn.getD "") with
    | Except.error e => Except.error e
    | Except.ok _ =>
        let store' :=
          if td.status = some "DELIVERED" ∧ alookup order "internal_state" ≠ some "DELIVERED"
          then upsert_order now store (oid.getD "")
            [("internal_state", "DELIVERED"), ("last_event", "GLS_DELIVERED"),
             ("last_event_at", now), ("delivery_date", td.delivery_date.getD "")]
          else store
        Except.ok (store', 1)
  else Except.ok (store, 0)

/-- Per-order loop of `_poll_tracking_updates` (lines 105-148): skip
orders without a tracking number; query the carrier status (`getStatus`);
when it differs from the recorded `carrier_status`, push to Mirakl and
upsert the new status; any per-order exception increments the error
count and the loop continues. Accumulates the store, the update count,
the error count and the Mirakl push count. -/
def poll_orders_loop (getStatus : String → Except PyErr GlsStatusRes)
    (push : String → String → Except PyErr Unit) (now : String) :
    List OrderRec → OrderStore → Nat → Nat → Nat → OrderStore × Nat × Nat × Nat
  | [], store, upd, err, pushes => (store, upd, err, pushes)
  | o :: rest, store, upd, err, pushes =>
      let tn := alookup o "tracking_number"
      if truthy tn then
        match getStatus (tn.getD "") with
        | Except.error _ => poll_orders_loop getStatus push now rest store upd (err + 1) pushes
        | Except.ok cur =>
            if cur.status ≠ alookup o "carrier_status" then
              match update_mirakl_tracking push now store o cur with
              | Except.error _ =>
                  poll_orders_loop getStatus push now rest store upd (err + 1) pushes
              | Except.ok (store', p) =>
                  let store'' := upsert_order now store'
                    ((alookup o "mirakl_order_id").getD "")
                    [("carrier_status", cur.status.getD ""),
                     ("last_event", "GLS_STATUS_UPDATE:" ++ cur.status.getD ""),
                     ("last_event_at", now), ("tracking_events", cur.events)]
                  poll_orders_loop getStatus push now rest store'' (upd + 1) err (pushes + p)
            else poll_orders_loop getStatus push now rest store upd err pushes
      else poll_orders_loop getStatus push now rest store upd err pushes

/-- Embedding of `_poll_tracking_updates` (lines 86-166): fetch the
active GLS orders from the unified order logger - the call that raises
`AttributeError` - then run the per-order loop. -/
def poll_tracking_updates (getStatus : String → Except PyErr GlsStatusRes)
    (push : String → String → Except PyErr Unit) (now : String) (store : OrderStore) :
    Except PyErr (OrderStore × Nat × Nat × Nat) :=
  match unified_get_orders_by_carrier store "gls" with
  | Except.error e => Except.error e
  | Except.ok active =>
      if active.isEmpty then Except.ok (store, 0, 0, 0)
      else Except.ok (poll_orders_loop getStatus push now active store 0 0 0)

/-- Embedding of `poll_once` (lines 215-226): await
`_poll_tracking_updates` and return its outcome; exceptions propagate to
the caller. -/
def poll_once (getStatus : String → Except PyErr GlsStatusRes)
    (push : String → String → Except PyErr Unit) (now : String) (store : OrderStore) :
    Except PyErr (OrderStore × Nat × Nat × Nat) :=
  poll_tracking_updates getStatus push now store

/-! ## Claims about the idempotency guard and the order store -/

/-- C1, counterexample: invoking `create_shipment_with_idempotency`
twice with the same fingerprint key makes the external call only once,
but the second call does NOT return the result recorded by the first
call - it returns the synthetic CACHED placeholder, which differs from
the first result at this concrete input. -/
theorem C1_counterexample :
    let sha : String → String := fun s => s
    let create : IdemOrder → ShipResult := fun _ => ⟨"S1", "S1", "TN1", "CREATED", false⟩
    let o : IdemOrder := ⟨"ORD1", "2", "28001", "Madrid"⟩
    let r1 := create_shipment_with_idempotency sha create [] o
    let r2 := create_shipment_with_idempotency sha create r1.2.1 o
    r1.2.2 = 1 ∧ r2.2.2 = 0 ∧ r2.1 ≠ r1.1 := by
  decide

/-- C1, amended: two calls of `create_shipment_with_idempotency` with
the same fingerprint key invoke the external `create_shipment` exactly
once (on the first call, never on the second), but the second call
returns the synthetic placeholder `get_cached_shipment key` built from
the key alone, not the result the first call produced. -/
theorem C1_amended_behavior (sha256hex : String → String)
    (create : IdemOrder → ShipResult) (o : IdemOrder) :
    let key := generate_idempotency_key sha256hex o
    let r1 := create_shipment_with_idempotency sha256hex create [] o
    let r2 := create_shipment_with_idempotency sha256hex create r1.2.1 o
    r1.1 = create o ∧ r1.2.1 = [key] ∧ r1.2.2 = 1 ∧
      r2.1 = get_cached_shipment key ∧ r2.2.1 = [key] ∧ r2.2.2 = 0 := by
  simp [create_shipment_with_idempotency]

/-- C2, counterexample: a stored order in state POSTED upserted with
internal_state PENDING_POST moves backward: `upsert_order` returns
normally and the resulting record holds PENDING_POST with no flag of any
kind - the claim that the store rejects or flags the backward transition
is false at this input. -/
theorem C2_counterexample :
    let st1 := upsert_order "T1" [] "O1" [("internal_state", "POSTED")]
    let st2 := upsert_order "T2" st1 "O1" [("internal_state", "PENDING_POST")]
    get_order st2 "O1"
      = some [("order_id", "O1"), ("created_at", "T1"), ("updated_at", "T2"),
              ("internal_state", "PENDING_POST")] := by
  decide

/-- C2, amended: `upsert_order` applies the given fields unconditionally
- for an existing record, any `internal_state` value supplied (including
one moving backward in the lifecycle ordering) is merged silently, with
only `updated_at` refreshed and every other stored field untouched;
there is no rejection and no flag. -/
theorem C2_amended_behavior (now : String) (store : OrderStore) (order_id : String)
    (rec : OrderRec) (v : String) (h : alookup store order_id = some rec) :
    get_order (upsert_order now store order_id [("internal_state", v)]) order_id
      = some (aset (aset rec "internal_state" v) "updated_at" now) := by
  unfold upsert_order get_order
  rw [h]
  simp [recUpdate, alookup_aset_self]

/-- C2, witness for the amended theorem at a concrete store. -/
theorem C2_amended_behavior_witness :
    get_order (upsert_order "T2" [("O1", [("order_id", "O1"), ("internal_state", "POSTED")])]
        "O1" [("internal_state", "PENDING_POST")]) "O1"
      = some (aset (aset [("order_id", "O1"), ("internal_state", "POSTED")]
          "internal_state" "PENDING_POST") "updated_at" "T2") :=
  C2_amended_behavior "T2" [("O1", [("order_id", "O1"), ("internal_state", "POSTED")])]
    "O1" [("order_id", "O1"), ("internal_state", "POSTED")] "PENDING_POST" (by decide)

/-- C9: two upserts to the same order id merge their fields - the final
record holds both a=1 and b=2 - while `created_at` keeps the value set
at first insert, `updated_at` is refreshed by the second upsert, and the
untouched fields (here `order_id` and `a`) are unchanged. -/
theorem C9_upsert_roundtrip (st : OrderStore) (order_id now1 now2 : String)
    (h : alookup st order_id = none) :
    get_order
        (upsert_order now2 (upsert_order now1 st order_id [("a", "1")]) order_id [("b", "2")])
        order_id
      = some [("order_id", order_id), ("created_at", now1), ("updated_at", now2),
              ("a", "1"), ("b", "2")] := by
  unfold upsert_order get_order
  rw [h]
  rw [alookup_append_right _ _ _ h]
  simp [recUpdate, alookup_aset_self]

/-- C9, witness at the empty store. -/
theorem C9_upsert_roundtrip_witness :
    get_order
        (upsert_order "T2" (upsert_order "T1" [] "O1" [("a", "1")]) "O1" [("b", "2")]) "O1"
      = some [("order_id", "O1"), ("created_at", "T1"), ("updated_at", "T2"),
              ("a", "1"), ("b", "2")] :=
  C9_upsert_roundtrip [] "O1" "T1" "T2" (by decide)

/-! ## Claims about webhook processing -/

/-- C4: processing the same webhook event id twice mutates state exactly
once. The first call (id not yet processed) adds exactly the extracted
event id to the processed-events set; the second call returns the
duplicate short-circuit dict and leaves the set unchanged.
`process_webhook_event` writes no other state at all - in particular it
never touches the order store, so no stored `updated_at` can change on
the replay. -/
theorem C4_duplicate_event_processed_once (hash16 : WebhookEventData → String)
    (now1 now2 carrier1 carrier2 : String) (processed : List String) (e : WebhookEventData)
    (h : is_duplicate_event processed (extract_event_id hash16 e) = false) :
    let r1 := process_webhook_event hash16 now1 carrier1 processed e
    let r2 := process_webhook_event hash16 now2 carrier2 r1.2 e
    r1.2 = extract_event_id hash16 e :: processed ∧
    r2.1 = ProcessOutcome.duplicate (extract_event_id hash16 e) "Event already processed" ∧
    r2.2 = r1.2 := by
  simp only [process_webhook_event, h, if_false, Bool.false_eq_true, if_neg,
    mark_event_processed]
  simp [is_duplicate_event]

/-- C4, witness at a concrete event and empty processed set. -/
theorem C4_duplicate_event_processed_once_witness :
    let hash16 : WebhookEventData → String := fun _ => "F0F0F0F0F0F0F0F0"
    let e : WebhookEventData := ⟨some "EV1", none, some "EXP1", some "SHIPPED"⟩
    let r1 := process_webhook_event hash16 "T1" "correosex" [] e
    let r2 := process_webhook_event hash16 "T2" "correosex" r1.2 e
    r1.2 = extract_event_id hash16 e :: [] ∧
    r2.1 = ProcessOutcome.duplicate (extract_event_id hash16 e) "Event already processed" ∧
    r2.2 = r1.2 :=
  C4_duplicate_event_processed_once (fun _ => "F0F0F0F0F0F0F0F0") "T1" "T2" "correosex"
    "correosex" [] ⟨some "EV1", none, some "EXP1", some "SHIPPED"⟩ (by decide)

/-- C6: evaluation at the failing input. For the configured carrier
tipsa and a signature that IS the HMAC-SHA256 digest of the payload
under the tipsa secret, a perfectly fresh timestamp (age 0) in
offset-aware ISO form (the standard Z-suffixed format) is rejected by
`validate_webhook` - the naive `utcnow()` minus aware datetime
subtraction raises `TypeError`, swallowed into `return False` - while
the same webhook with the timestamp in offset-naive form is accepted,
showing the signature and freshness are otherwise valid. -/
theorem C6_fresh_valid_webhook_rejected (hmacSha256hex : String → String → String)
    (payload : String) :
    validate_webhook hmacSha256hex payload
        (hmacSha256hex "tipsa_webhook_secret_2025" payload) (TsArg.awareParsed 0) "tipsa"
      = false ∧
    validate_webhook hmacSha256hex payload
        (hmacSha256hex "tipsa_webhook_secret_2025" payload) (TsArg.naiveParsed 0) "tipsa"
      = true := by
  constructor
  · rfl
  · simp [validate_webhook, validate_webhook_signature_part, webhook_secrets,
      max_timestamp_age]

/-- C3: evaluation at the failing inputs. The webhook endpoint does not
acknowledge unconditionally: a stale timestamp (301 seconds old) is
answered with HTTP 400 via a propagated `HTTPException`, and a fresh
timestamp with a signature the adapter rejects is answered with HTTP
401 - both are HTTP failures, not a 202 acknowledgment. -/
theorem C3_webhook_endpoint_http_failures
    (validateSig : String → String → String → Bool)
    (processEvent : String → Except String Unit) (now payload sig : String) :
    receive_webhook validateSig processEvent now "correosex" (some sig)
        (some (TsArg.naiveParsed 301)) payload
      = HttpResponse.httpError 400 "Webhook timestamp too old" ∧
    (validateSig payload sig "correosex_webhook_secret_2025" = false →
      receive_webhook validateSig processEvent now "correosex" (some sig)
          (some (TsArg.naiveParsed 0)) payload
        = HttpResponse.httpError 401 "Invalid webhook signature") := by
  constructor
  · rfl
  · intro h
    simp [receive_webhook, receive_webhook_check_sig, carriers_api_adapters,
      webhook_secrets, h]

/-- C3, witness with a concrete rejecting validator. -/
theorem C3_webhook_endpoint_http_failures_witness :
    receive_webhook (fun _ _ _ => false) (fun _ => Except.ok ()) "T" "correosex" (some "BAD")
        (some (TsArg.naiveParsed 301)) "PAYLOAD"
      = HttpResponse.httpError 400 "Webhook timestamp too old" ∧
    receive_webhook (fun _ _ _ => false) (fun _ => Except.ok ()) "T" "correosex" (some "BAD")
        (some (TsArg.naiveParsed 0)) "PAYLOAD"
      = HttpResponse.httpError 401 "Invalid webhook signature" :=
  ⟨(C3_webhook_endpoint_http_failures (fun _ _ _ => false) (fun _ => Except.ok ())
      "T" "PAYLOAD" "BAD").1,
   (C3_webhook_endpoint_http_failures (fun _ _ _ => false) (fun _ => Except.ok ())
      "T" "PAYLOAD" "BAD").2 rfl⟩

/-- C10: for a configured carrier, a webhook request with no X-Signature
and no X-Timestamp header skips both the signature and the freshness
check entirely - the endpoint goes straight to event processing, the
response does not depend on the signature validator at all, and no
header absence is answered with an HTTP error. -/
theorem C10_absent_headers_skip_checks
    (validateSig validateSig' : String → String → String → Bool)
    (processEvent : String → Except String Unit) (now carrier payload secret : String)
    (h1 : carriers_api_adapters.contains carrier = true)
    (h2 : alookup webhook_secrets carrier = some secret) :
    receive_webhook validateSig processEvent now carrier none none payload
      = receive_webhook_process processEvent now carrier payload ∧
    receive_webhook validateSig processEvent now carrier none none payload
      = receive_webhook validateSig' processEvent now carrier none none payload ∧
    ∀ s d, receive_webhook validateSig processEvent now carrier none none payload
      ≠ HttpResponse.httpError s d := by
  have hmem : carrier ∈ carriers_api_adapters := by
    simpa using h1
  have hmain : receive_webhook validateSig processEvent now carrier none none payload
      = receive_webhook_process processEvent now carrier payload := by
    simp [receive_webhook, hmem, h2, receive_webhook_check_sig]
  have hmain' : receive_webhook validateSig' processEvent now carrier none none payload
      = receive_webhook_process processEvent now carrier payload := by
    simp [receive_webhook, hmem, h2, receive_webhook_check_sig]
  refine ⟨hmain, hmain.trans hmain'.symm, ?_⟩
  intro s d
  rw [hmain]
  unfold receive_webhook_process
  cases processEvent payload with
  | ok _ => simp
  | error _ => simp

/-- C10, witness at the configured carrier correosex. -/
theorem C10_absent_headers_skip_checks_witness :
    receive_webhook (fun _ _ _ => false) (fun _ => Except.ok ()) "T" "correosex" none none "P"
      = receive_webhook_process (fun _ => Except.ok ()) "T" "correosex" "P" ∧
    receive_webhook (fun _ _ _ => false) (fun _ => Except.ok ()) "T" "correosex" none none "P"
      = receive_webhook (fun _ _ _ => true) (fun _ => Except.ok ()) "T" "correosex" none none "P" ∧
    ∀ s d, receive_webhook (fun _ _ _ => false) (fun _ => Except.ok ()) "T" "correosex"
      none none "P" ≠ HttpResponse.httpError s d :=
  C10_absent_headers_skip_checks (fun _ _ _ => false) (fun _ _ _ => true)
    (fun _ => Except.ok ()) "T" "correosex" "P" "correosex_webhook_secret_2025"
    (by decide) (by decide)

/-! ## Claims about dispatch, selection and polling -/

/-- C5: per-carrier failure isolation of the dispatch endpoint. With the
tipsa adapter healthy and the dhl adapter raising on every call, the
dispatch over orders grouping into exactly those two carriers still
reports overall success, returns the healthy shipments untouched, and
gives dhl a breakdown entry whose error field carries the exception
message - the dhl failure does not abort the tipsa group. -/
theorem C5_dispatch_isolates_carrier_failure
    (bulk : String → Option (List SelOrder → Except String BulkResult))
    (fok ffail : List SelOrder → Except String BulkResult)
    (orders gT gD : List SelOrder) (rT : BulkResult) (e : String)
    (hbT : bulk "tipsa" = some fok) (hbD : bulk "dhl" = some ffail)
    (hfail : ∀ xs, ffail xs = Except.error e)
    (hok : fok gT = Except.ok rT)
    (hgroups : group_orders_by_carrier orders = [("tipsa", gT), ("dhl", gD)])
    (hne : orders ≠ []) (hgT : gT ≠ []) (hgD : gD ≠ []) :
    let res := load_orders_and_create_shipments bulk orders
    res.success = true ∧
    res.shipments = rT.shipments ∧
    res.carrier_breakdown
      = [("tipsa", ⟨gT.length, rT.shipments.length, "TIPSA", none⟩),
         ("dhl", ⟨gD.length, 0, "DHL Express", some e⟩)] := by
  unfold load_orders_and_create_shipments
  rw [hgroups]
  simp only [List.isEmpty_eq_false_iff_exists_mem, List.isEmpty_iff, hne, if_neg,
    List.foldl_cons, List.foldl_nil]
  simp [dispatch_group_step, hbT, hbD, hok, hfail, hgT, hgD, get_carrier_info_name]

/-- C5, witness: one domestic order routed to tipsa, one international
order routed to dhl, a healthy tipsa bulk creator and a dhl creator that
always raises. -/
theorem C5_dispatch_isolates_carrier_failure_witness :
    let o1 : SelOrder := ⟨some 2, none, none, some "ES"⟩
    let o2 : SelOrder := ⟨some 2, none, none, some "FR"⟩
    let bulk : String → Option (List SelOrder → Except String BulkResult) := fun c =>
      if c = "tipsa" then some (fun _ => Except.ok ⟨["S1"]⟩)
      else if c = "dhl" then some (fun _ => Except.error "boom") else none
    let res := load_orders_and_create_shipments bulk [o1, o2]
    res.success = true ∧
    res.shipments = ["S1"] ∧
    res.carrier_breakdown
      = [("tipsa", ⟨1, 1, "TIPSA", none⟩), ("dhl", ⟨1, 0, "DHL Express", some "boom"⟩)] :=
  C5_dispatch_isolates_carrier_failure _ (fun _ => Except.ok ⟨["S1"]⟩)
    (fun _ => Except.error "boom")
    [⟨some 2, none, none, some "ES"⟩, ⟨some 2, none, none, some "FR"⟩]
    [⟨some 2, none, none, some "ES"⟩] [⟨some 2, none, none, some "FR"⟩] ⟨["S1"]⟩ "boom"
    rfl rfl (fun _ => rfl) rfl (by decide) (by decide) (by decide) (by decide)

/-- C8, counterexample: under the default rule set of `select_carrier`,
the three example orders are routed to tipsa, tipsa and dhl: the 2kg
domestic order and the 25kg domestic order share the same carrier code,
so the three selected codes are not pairwise distinct. -/
theorem C8_counterexample :
    let o1 : SelOrder := ⟨some 2, none, none, some "ES"⟩
    let o2 : SelOrder := ⟨some 25, none, none, some "ES"⟩
    let o3 : SelOrder := ⟨some 2, none, none, some "FR"⟩
    select_carrier o1 = "tipsa" ∧ select_carrier o2 = "tipsa" ∧ select_carrier o3 = "dhl" ∧
    ¬ (select_carrier o1 ≠ select_carrier o2 ∧ select_carrier o1 ≠ select_carrier o3 ∧
       select_carrier o2 ≠ select_carrier o3) := by
  decide

/-- C8, amended: the three example orders get the codes tipsa, tipsa and
dhl - the heavy-package rule and the default rule both target tipsa, so
only the international order is routed to a distinct carrier. The
ordered-rule engine of `engine.py` agrees: its default rule set maps the
corresponding orders to TIPSA, TIPSA and DHL. -/
theorem C8_amended_behavior :
    let o1 : SelOrder := ⟨some 2, none, none, some "ES"⟩
    let o2 : SelOrder := ⟨some 25, none, none, some "ES"⟩
    let o3 : SelOrder := ⟨some 2, none, none, some "FR"⟩
    let e1 : EngOrder := ⟨2, none, "standard", "ES"⟩
    let e2 : EngOrder := ⟨25, none, "standard", "ES"⟩
    let e3 : EngOrder := ⟨2, none, "standard", "FR"⟩
    select_carrier o1 = "tipsa" ∧ select_carrier o2 = "tipsa" ∧ select_carrier o3 = "dhl" ∧
    select_carrier o3 ≠ select_carrier o1 ∧
    get_carrier_for_order default_rules e1 = CarrierType.tipsa ∧
    get_carrier_for_order default_rules e2 = CarrierType.tipsa ∧
    get_carrier_for_order default_rules e3 = CarrierType.dhl := by
  decide

/-- C7: evaluation at the failing input. Every `poll_once` call - for
any carrier status oracle, any Mirakl push, any store contents
(including two tracked GLS orders of which one has a changed status) -
raises `AttributeError` at the initial
`unified_order_logger.get_orders_by_carrier("gls")` call, because
`UnifiedOrderLogger` defines no such method; no order is polled, no
status change is recorded and no marketplace push happens. -/
theorem C7_poll_once_raises_attribute_error
    (getStatus : String → Except PyErr GlsStatusRes)
    (push : String → String → Except PyErr Unit) (now : String) (store : OrderStore) :
    poll_once getStatus push now store
      = Except.error (PyErr.attributeError "get_orders_by_carrier") := rfl
